import Mathlib

/-!
# Shallow embedding of the form-submission backend (`backend/server.js`)

This file embeds the parts of the Express/SQLite backend that the voting and
submission claims are about:

* the voting data model (`votes`, `voting_config`, `voting_history`) as
  initialized by `backend/init-db.js` — note that `init-db.js` creates only
  `users`, `votes`, `voting_config` and `voting_history` (and `server.js`
  creates `app_config` at startup): the `pending_votes` and `donations`
  tables that `server.js` reads and writes are never created anywhere in the
  repository, so every SQL statement against them fails with
  `SQLITE_ERROR: no such table: ...`;
* the request handlers that read or write those tables:
  `POST /api/votes`, `POST /api/twilio/webhook`, `POST /api/votes/status`,
  `POST /api/votes/clear`, `DELETE /api/votes/:voteId`;
* the image upload handler `POST /api/submit` together with the
  `validateImageSize` utility.

Pure JavaScript idioms are translated explicitly: `x || d` on strings becomes
`jsOrStr`, `x || d` on numbers becomes `jsOr` (JS treats `0` and `""` as
falsy), `String.prototype.toUpperCase` becomes `jsToUpper`, and a field that
may be absent from a JSON body is an `Option`.  The nondeterministic inputs of
a handler (generated ids, `new Date().toISOString()` timestamps, whether the
SQLite insert errors) are parameters of the embedded function.
-/

namespace FormApp

/-- JS `v || d` for numbers: `0` is falsy. -/
def jsOr (v d : Nat) : Nat := if v = 0 then d else v

/-- JS `v || d` for strings: `""` is falsy. -/
def jsOrStr (v d : String) : String := if v = "" then d else v

/-- JS `String.prototype.toUpperCase` (ASCII, which is all the app feeds it). -/
def jsToUpper (s : String) : String := String.mk (s.data.map Char.toUpper)

/-- JS `String.prototype.trim`: strip whitespace from both ends (ASCII,
which is all the app feeds it). -/
def jsTrim (s : String) : String :=
  String.mk (((s.data.dropWhile Char.isWhitespace).reverse.dropWhile Char.isWhitespace).reverse)

/-- JS truthiness test `!x` for an optional string field: missing or empty. -/
def jsFalsyStr (o : Option String) : Bool :=
  match o with
  | none => true
  | some s => s = ""

/-- A row of the `votes` table (`init-db.js`): AUTOINCREMENT id, phone
number, letter, round, timestamp. -/
structure Vote where
  id : Nat
  phone_number : String
  letter : String
  round : Nat
  created_at : String
deriving DecidableEq, Repr

/-- The singleton row of `voting_config` (`init-db.js` inserts
`(id=1, current_round=1, status='stopped')`). -/
structure VotingConfig where
  current_round : Nat
  status : String
deriving DecidableEq, Repr

/-- A row of `voting_history`: the archived round and the parsed content of
its `votes_json` snapshot (`JSON.stringify(roundVotes)` in `server.js`),
plus the `ended_at` timestamp. The AUTOINCREMENT id is omitted. -/
structure HistoryRow where
  round : Nat
  votes_json : List Vote
  ended_at : String
deriving DecidableEq, Repr

/-- The database state touched by the voting feature: exactly the voting
tables that exist in the initialized schema (`votes`, `voting_config`,
`voting_history`).  There is no `pending_votes` or `donations` field because
no file of the repository ever creates those tables — statements against
them always fail with `no such table` and never store or delete anything.
`init-db.js` guarantees the `voting_config` singleton exists, so `config`
is total.  `nextVoteId` models the SQLite AUTOINCREMENT counter. -/
structure VotingState where
  votes : List Vote
  config : VotingConfig
  history : List HistoryRow
  nextVoteId : Nat
deriving DecidableEq, Repr

/-- The state right after `node init-db.js`: empty `votes` and
`voting_history` tables and the `voting_config` row
`(current_round = 1, status = 'stopped')`.  `init-db.js` creates no
`pending_votes` or `donations` table. -/
def initState : VotingState :=
  { votes := []
    config := { current_round := 1, status := "stopped" }
    history := []
    nextVoteId := 1 }

/-- Outcome of `POST /api/votes` (`server.js` lines 596-669). `threw` marks
the uncaught `TypeError` raised by `letter.toUpperCase()` when the body has
no `letter` field: the handler sends no HTTP response at all in that case.
The handler's `{success, pending:true, vote}` answer is unreachable — its
insert into the nonexistent `pending_votes` table always errors — so no
constructor models it. -/
inductive VoteResponse where
  | okVote (id : Nat) (phoneNumber letter : String) (round : Nat) (createdAt : String)
  | badRequest (error : String)
  | serverError (error : String)
  | threw
deriving DecidableEq, Repr

/-- `POST /api/votes` (`server.js` lines 596-669).

Reads `voting_config`; if `config.status !== "running"` it attempts
`INSERT INTO pending_votes` — the statement's argument list evaluates
`letter.toUpperCase()` first, so a missing `letter` throws; with a letter
present the insert always fails (`pending_votes` is never created by any
file of the repository), the `if (err)` branch answers HTTP 500 with the
SQLite message, and nothing is stored.  Otherwise it looks for an existing
`(phone_number, round)` row, answers 400 on a duplicate, and inserts into
`votes` (which does exist) otherwise. -/
def castVote (s : VotingState) (phoneNumber : String) (letter : Option String)
    (now : String) : VotingState × VoteResponse :=
  if s.config.status ≠ "running" then
    match letter with
    | none => (s, .threw)
    | some _ => (s, .serverError "SQLITE_ERROR: no such table: pending_votes")
  else
    let currentRound := jsOr s.config.current_round 1
    match s.votes.find? (fun v => v.phone_number == phoneNumber && v.round == currentRound) with
    | some _ => (s, .badRequest "Phone number already voted in this round")
    | none =>
      match letter with
      | none => (s, .threw)
      | some l =>
        let v : Vote :=
          { id := s.nextVoteId, phone_number := phoneNumber
            letter := jsToUpper l, round := currentRound, created_at := now }
        ({ s with votes := s.votes ++ [v], nextVoteId := s.nextVoteId + 1 },
         .okVote s.nextVoteId phoneNumber (jsToUpper l) currentRound now)

/-- Outcome of `POST /api/votes/status` and `POST /api/votes/clear`. -/
inductive StatusResponse where
  | ok (currentRound : Nat) (roundStatus : String)
  | okCleared
deriving DecidableEq, Repr

/-- `POST /api/votes/status` (`server.js` lines 680-750).

`oldStatus = config?.status || "stopped"`.  When the request carries
`"stopped"` and `oldStatus` is not `"stopped"`, the current round's votes are
snapshotted into `voting_history` (only when there is at least one), deleted
from `votes`, and `current_round` is incremented together with the status
update.  Every other request just writes the client-supplied status string;
when that string is `"running"` the handler first attempts
`DELETE FROM pending_votes`, but that table is never created by any file of
the repository, so the statement always fails (the error is only logged)
and no discard happens — the branch leaves everything but the status
untouched. -/
def setVotingStatus (s : VotingState) (status : String) (now : String) :
    VotingState × StatusResponse :=
  let oldStatus := jsOrStr s.config.status "stopped"
  if status = "stopped" ∧ oldStatus ≠ "stopped" then
    let roundVotes := s.votes.filter (fun v => v.round == s.config.current_round)
    let history' :=
      if roundVotes.isEmpty then s.history
      else s.history ++ [{ round := s.config.current_round, votes_json := roundVotes, ended_at := now }]
    let votes' := s.votes.filter (fun v => v.round != s.config.current_round)
    let config' : VotingConfig := { current_round := s.config.current_round + 1, status := status }
    ({ s with votes := votes', history := history', config := config' },
     .ok (jsOr config'.current_round 1) (jsOrStr config'.status "stopped"))
  else
    let config' : VotingConfig := { s.config with status := status }
    ({ s with config := config' },
     .ok (jsOr s.config.current_round 1) status)

/-- `POST /api/votes/clear` (`server.js` lines 753-791): archive the current
round's votes (when nonempty), delete them, set status to `"stopped"`
without touching `current_round`. -/
def clearVotes (s : VotingState) (now : String) : VotingState × StatusResponse :=
  let roundVotes := s.votes.filter (fun v => v.round == s.config.current_round)
  let history' :=
    if roundVotes.isEmpty then s.history
    else s.history ++ [{ round := s.config.current_round, votes_json := roundVotes, ended_at := now }]
  let votes' := s.votes.filter (fun v => v.round != s.config.current_round)
  ({ s with votes := votes', history := history', config := { s.config with status := "stopped" } },
   .okCleared)

/-- `DELETE /api/votes/:voteId` (`server.js` lines 672-677). -/
def deleteVote (s : VotingState) (voteId : Nat) : VotingState × StatusResponse :=
  ({ s with votes := s.votes.filter (fun v => v.id != voteId) }, .okCleared)

/-- The regex `/^[A-Fa-f]$/i` of the Twilio webhook: a single letter A-F in
either case. -/
def isVoteLetter (m : String) : Bool :=
  match m.data with
  | [c] => (65 ≤ c.toNat && c.toNat ≤ 70) || (97 ≤ c.toNat && c.toNat ≤ 102)
  | _ => false

/-- Outcome of `POST /api/twilio/webhook`. A vote message is always answered
with the empty `<Response></Response>` stanza; a donation is answered with
the configured auto-reply. -/
inductive WebhookResponse where
  | missingFields
  | xmlEmpty
  | xmlReply
deriving DecidableEq, Repr

/-- `POST /api/twilio/webhook` (`server.js` lines 794-888).

Rejects a falsy `From` or `Body` with 400.  A single-letter body is a vote:
if `config.status !== "running"` the handler attempts an
`INSERT INTO pending_votes`, which always fails (`pending_votes` is never
created by any file of the repository); the error is only logged, nothing
is stored, and the empty XML stanza is still sent.  While running, the
letter is inserted into `votes` unless the `(phone, round)` pair already
voted.  Any other body is parsed as a donation, but the
`INSERT INTO donations` likewise always fails against the nonexistent
`donations` table (error only logged), so the branch stores nothing and
just sends the configured auto-reply. -/
def twilioWebhook (s : VotingState) (fromNumber body : Option String)
    (now : String) : VotingState × WebhookResponse :=
  if jsFalsyStr fromNumber || jsFalsyStr body then
    (s, .missingFields)
  else
    let phoneNumber := fromNumber.getD ""
    let message := jsTrim (body.getD "")
    if isVoteLetter message then
      let letter := jsToUpper message
      if s.config.status ≠ "running" then
        (s, .xmlEmpty)
      else
        let currentRound := jsOr s.config.current_round 1
        match s.votes.find? (fun v => v.phone_number == phoneNumber && v.round == currentRound) with
        | some _ => (s, .xmlEmpty)
        | none =>
          let v : Vote :=
            { id := s.nextVoteId, phone_number := phoneNumber
              letter := letter, round := currentRound, created_at := now }
          ({ s with votes := s.votes ++ [v], nextVoteId := s.nextVoteId + 1 },
           .xmlEmpty)
    else
      (s, .xmlReply)

/-- One state-changing API request against the voting tables.  By inspection
of `server.js`, these five handlers are the only code that writes (or
attempts to write) `votes`, `voting_config`, `voting_history`,
`pending_votes` or `donations`; all other endpoints touch only `users` and
`app_config`.  Each constructor carries the request body fields and the
request-time timestamp. -/
inductive Op where
  | castVote (phoneNumber : String) (letter : Option String) (now : String)
  | twilioWebhook (fromNumber body : Option String) (now : String)
  | setStatus (status : String) (now : String)
  | clearVotes (now : String)
  | deleteVote (voteId : Nat)
deriving DecidableEq, Repr

/-- The state reached by one operation (the HTTP response is dropped). -/
def applyOp (s : VotingState) : Op → VotingState
  | .castVote p l now => (castVote s p l now).1
  | .twilioWebhook f b now => (twilioWebhook s f b now).1
  | .setStatus st now => (setVotingStatus s st now).1
  | .clearVotes now => (clearVotes s now).1
  | .deleteVote id => (deleteVote s id).1

/-- The state reached from the initialized database by a request sequence. -/
def execOps (ops : List Op) : VotingState := ops.foldl applyOp initState

/-! ## The submit endpoint (`POST /api/submit`) -/

/-- Pixel metadata of an image file. -/
structure ImageMetadata where
  width : Nat
  height : Nat
deriving DecidableEq, Repr

/-- Result of evaluating `sharp(imagePath).metadata()` inside
`validateImageSize` (`server.js` lines 169-187).

`server.js` never requires or defines `sharp` — it is absent from the file's
`require` list and from `package.json`'s dependencies — so the identifier is
unbound and the expression throws a `ReferenceError` for every path instead
of producing metadata.  That thrown evaluation is `none`. -/
def sharpMetadata (_imagePath : String) : Option ImageMetadata := none

/-- The return value of `validateImageSize`. -/
structure ValidationResult where
  valid : Bool
  message : String
deriving DecidableEq, Repr

/-- The maximum width accepted by `validateImageSize` (default parameter). -/
def maxWidth : Nat := 4000

/-- The maximum height accepted by `validateImageSize` (default parameter). -/
def maxHeight : Nat := 4000

/-- `validateImageSize` (`server.js` lines 169-187): reads the image's
metadata via `sharp`; reports dimensions beyond 4000x4000 as too large,
reports a throwing metadata read as `"Invalid image file"`, and is valid
otherwise. -/
def validateImageSize (imagePath : String) : ValidationResult :=
  match sharpMetadata imagePath with
  | some md =>
    if md.width > maxWidth || md.height > maxHeight then
      { valid := false
        message := "Image dimensions too large. Maximum allowed: " ++
          toString maxWidth ++ "x" ++ toString maxHeight ++ "px. Your image: " ++
          toString md.width ++ "x" ++ toString md.height ++ "px" }
    else
      { valid := true, message := "" }
  | none => { valid := false, message := "Invalid image file" }

/-- The `req.file` object produced by the multer middleware once a file has
been accepted and stored.  With disk storage (local mode) `path` and
`filename` are set; with multer-s3 (Spaces mode) `key` and `location` are. -/
structure ReqFile where
  path : String
  filename : String
  key : String
  location : String
deriving DecidableEq, Repr

/-- `imagePath` as computed by the submit handler: the Spaces key or the
local disk path (`server.js` lines 417-428). -/
def submitImagePath (useSpaces : Bool) (f : ReqFile) : String :=
  if useSpaces then f.key else f.path

/-- `imageUrl` as computed by the submit handler: the Spaces location or
`protocol://host/uploads/images/filename` (`server.js` lines 417-428). -/
def submitImageUrl (useSpaces : Bool) (f : ReqFile) (protocol host : String) : String :=
  if useSpaces then f.location
  else protocol ++ "://" ++ host ++ "/uploads/images/" ++ f.filename

/-- A row of the `users` table as inserted by the submit handler
(`created_at` defaults in SQL and is omitted). -/
structure UserRow where
  id : String
  name : String
  image_path : String
  image_url : String
deriving DecidableEq, Repr

/-- HTTP outcome of `POST /api/submit`: 400, 201 with the `data` payload,
or 500. -/
inductive SubmitResponse where
  | badRequest (error : String)
  | created (id name image_url created_at storage_type : String)
  | serverError (error : String)
deriving DecidableEq, Repr

/-- Whether a submit response is one of the two error classes. -/
def SubmitResponse.isError : SubmitResponse → Bool
  | .badRequest _ => true
  | .serverError _ => true
  | .created _ _ _ _ _ => false

/-- Observable effect of one `POST /api/submit` request: the response, the
rows added to `users`, and the files removed by `fs.unlinkSync`. -/
structure SubmitResult where
  response : SubmitResponse
  insertedRows : List UserRow
  deletedFiles : List String
deriving DecidableEq, Repr

/-- `POST /api/submit` (`server.js` lines 395-508).

Validates that `name` is present and non-blank and that a file was uploaded;
in local mode runs `validateImageSize` on the stored file and unlinks it on
rejection; then inserts one `users` row.  A failing insert (modelled by
`insertOk = false`) answers 500 after unlinking the local file; a successful
one answers 201 with the generated id, trimmed name and image URL.
`userId` is the `generateShortId()` value and `now` the response
timestamp. -/
def submitHandler (useSpaces : Bool) (name : Option String) (file : Option ReqFile)
    (userId protocol host : String) (insertOk : Bool) (now : String) : SubmitResult :=
  match name with
  | none => { response := .badRequest "Name is required", insertedRows := [], deletedFiles := [] }
  | some n =>
    if jsTrim n = "" then
      { response := .badRequest "Name is required", insertedRows := [], deletedFiles := [] }
    else
      match file with
      | none => { response := .badRequest "Image is required", insertedRows := [], deletedFiles := [] }
      | some f =>
        let imagePath := submitImagePath useSpaces f
        let imageUrl := submitImageUrl useSpaces f protocol host
        if useSpaces = false ∧ (validateImageSize f.path).valid = false then
          { response := .badRequest (validateImageSize f.path).message
            insertedRows := []
            deletedFiles := [f.path] }
        else if insertOk then
          { response := .created userId (jsTrim n) imageUrl now (if useSpaces then "spaces" else "local")
            insertedRows := [{ id := userId, name := jsTrim n, image_path := imagePath, image_url := imageUrl }]
            deletedFiles := [] }
        else
          { response := .serverError "Internal server error"
            insertedRows := []
            deletedFiles := if useSpaces then [] else [f.path] }

/-! ## Invariants and helper lemmas -/

/-- The votes table holds at most one row per `(phone_number, round)` pair. -/
def votesDistinct (s : VotingState) : Prop :=
  s.votes.Pairwise (fun a b => ¬(a.phone_number = b.phone_number ∧ a.round = b.round))

/-- The requests of `POST /api/votes/status` whose body carries one of the
two documented status values. -/
def opStatusOK : Op → Bool
  | .setStatus st _ => st == "running" || st == "stopped"
  | _ => true

theorem castVote_config (s : VotingState) (p : String) (l : Option String) (now : String) :
    (castVote s p l now).1.config = s.config := by
  unfold castVote
  dsimp only
  cases l <;> split <;> first | rfl | (split <;> rfl)

theorem twilioWebhook_config (s : VotingState) (f b : Option String) (now : String) :
    (twilioWebhook s f b now).1.config = s.config := by
  unfold twilioWebhook
  dsimp only
  split
  · rfl
  · split
    · split
      · rfl
      · split <;> rfl
    · rfl

theorem deleteVote_config (s : VotingState) (id : Nat) :
    (deleteVote s id).1.config = s.config := rfl

theorem setVotingStatus_status (s : VotingState) (st now : String) :
    (setVotingStatus s st now).1.config.status = st := by
  unfold setVotingStatus
  dsimp only
  split <;> rfl

theorem clearVotes_status (s : VotingState) (now : String) :
    (clearVotes s now).1.config.status = "stopped" := rfl

theorem votesDistinct_append (votes : List Vote) (v : Vote)
    (h : votes.Pairwise (fun a b => ¬(a.phone_number = b.phone_number ∧ a.round = b.round)))
    (hfind : votes.find? (fun w => w.phone_number == v.phone_number && w.round == v.round) = none) :
    (votes ++ [v]).Pairwise (fun a b => ¬(a.phone_number = b.phone_number ∧ a.round = b.round)) := by
  rw [List.pairwise_append]
  refine ⟨h, List.pairwise_singleton _ _, ?_⟩
  intro a ha b hb
  rw [List.mem_singleton] at hb
  subst hb
  have hnone := List.find?_eq_none.mp hfind a ha
  simp only [Bool.and_eq_true, beq_iff_eq, not_and] at hnone ⊢
  exact hnone

theorem votesDistinct_castVote (s : VotingState) (p : String) (l : Option String)
    (now : String) (h : votesDistinct s) : votesDistinct (castVote s p l now).1 := by
  unfold votesDistinct at h ⊢
  unfold castVote
  dsimp only
  cases l with
  | none =>
    split
    · exact h
    · split
      · exact h
      · exact h
  | some lv =>
    split
    · exact h
    · split
      · exact h
      · rename_i hfind
        exact votesDistinct_append s.votes _ h hfind

theorem votesDistinct_twilioWebhook (s : VotingState) (f b : Option String)
    (now : String) (h : votesDistinct s) : votesDistinct (twilioWebhook s f b now).1 := by
  unfold votesDistinct at h ⊢
  unfold twilioWebhook
  dsimp only
  split
  · exact h
  · split
    · split
      · exact h
      · split
        · exact h
        · rename_i hfind
          exact votesDistinct_append s.votes _ h hfind
    · exact h

theorem votesDistinct_setVotingStatus (s : VotingState) (st now : String)
    (h : votesDistinct s) : votesDistinct (setVotingStatus s st now).1 := by
  unfold votesDistinct at h ⊢
  unfold setVotingStatus
  dsimp only
  split
  · exact List.Pairwise.sublist (List.filter_sublist _) h
  · exact h

theorem votesDistinct_clearVotes (s : VotingState) (now : String)
    (h : votesDistinct s) : votesDistinct (clearVotes s now).1 := by
  unfold votesDistinct at h ⊢
  exact List.Pairwise.sublist (List.filter_sublist _) h

theorem votesDistinct_deleteVote (s : VotingState) (id : Nat)
    (h : votesDistinct s) : votesDistinct (deleteVote s id).1 := by
  unfold votesDistinct at h ⊢
  exact List.Pairwise.sublist (List.filter_sublist _) h

theorem votesDistinct_applyOp (s : VotingState) (op : Op)
    (h : votesDistinct s) : votesDistinct (applyOp s op) := by
  cases op with
  | castVote p l now => exact votesDistinct_castVote s p l now h
  | twilioWebhook f b now => exact votesDistinct_twilioWebhook s f b now h
  | setStatus st now => exact votesDistinct_setVotingStatus s st now h
  | clearVotes now => exact votesDistinct_clearVotes s now h
  | deleteVote id => exact votesDistinct_deleteVote s id h

theorem votesDistinct_foldl (ops : List Op) : ∀ s : VotingState,
    votesDistinct s → votesDistinct (ops.foldl applyOp s) := by
  induction ops with
  | nil => intro s h; simpa using h
  | cons op rest ih =>
    intro s h
    simp only [List.foldl_cons]
    exact ih _ (votesDistinct_applyOp s op h)

theorem statusOK_applyOp (s : VotingState) (op : Op) (hop : opStatusOK op = true)
    (h : s.config.status = "running" ∨ s.config.status = "stopped") :
    (applyOp s op).config.status = "running" ∨ (applyOp s op).config.status = "stopped" := by
  cases op with
  | castVote p l now => simp only [applyOp, castVote_config]; exact h
  | twilioWebhook f b now => simp only [applyOp, twilioWebhook_config]; exact h
  | setStatus st now =>
    simp only [opStatusOK, Bool.or_eq_true, beq_iff_eq] at hop
    simp only [applyOp, setVotingStatus_status]
    exact hop
  | clearVotes now => right; simp only [applyOp, clearVotes_status]
  | deleteVote id => simp only [applyOp, deleteVote_config]; exact h

theorem statusOK_foldl (ops : List Op) : ∀ s : VotingState,
    (∀ op ∈ ops, opStatusOK op = true) →
    s.config.status = "running" ∨ s.config.status = "stopped" →
    (ops.foldl applyOp s).config.status = "running" ∨
      (ops.foldl applyOp s).config.status = "stopped" := by
  induction ops with
  | nil => intro s _ h; simpa using h
  | cons op rest ih =>
    intro s hops hs
    simp only [List.foldl_cons]
    exact ih _ (fun o ho => hops o (List.mem_cons_of_mem _ ho))
      (statusOK_applyOp s op (hops op (List.mem_cons_self _ _)) hs)

/-! ## Claim theorems -/

/-- Claim C1 (code bug): in local-storage mode the dimension check of
`POST /api/submit` never reports any image valid — `server.js` never
requires `sharp`, so `validateImageSize` always catches the
`ReferenceError` and answers `"Invalid image file"`.  Consequently a
request with a non-empty name and a readable image well within the
4000x4000 maximum (the repository's own 1x1 `test-image.png`) is rejected
with HTTP 400 instead of proceeding to the database insert, contradicting
the claim. -/
theorem C1_local_dimension_check_rejects_all :
    (∀ p : String, (validateImageSize p).valid = false) ∧
    validateImageSize "uploads/images/test-image.png" =
      { valid := false, message := "Invalid image file" } ∧
    submitHandler false (some "Test User")
        (some { path := "uploads/images/test-image.png", filename := "test-image.png"
                key := "", location := "" })
        "m0abcd" "http" "localhost:3001" true "2026-10-11T00:00:00.000Z" =
      { response := .badRequest "Invalid image file"
        insertedRows := []
        deletedFiles := ["uploads/images/test-image.png"] } := by
  refine ⟨fun p => rfl, rfl, ?_⟩
  decide

/-- Claim C10: a `POST /api/votes` body carrying a `phoneNumber` but no
`letter` makes the handler evaluate `letter.toUpperCase()` on `undefined`,
raising an uncaught `TypeError` (modelled by `VoteResponse.threw`) instead
of any HTTP error response, and leaving the database unchanged. -/
theorem C10_missing_letter_throws :
    (castVote initState "+15551234567" none "t0").2 = VoteResponse.threw ∧
    (castVote initState "+15551234567" none "t0").1 = initState :=
  ⟨rfl, rfl⟩

/-- Claim C9 (code bug): a `POST /api/votes/status` request with status
`"running"` attempts `DELETE FROM pending_votes`, but no file of the
repository ever creates that table, so the statement always fails with
`no such table` (the error is only logged) and deletes nothing — the
claimed discard mechanism does not exist.  For every prior state the
handler's effect is exactly the status write: the whole state apart from
`voting_config.status` (in particular the `votes` table) is unchanged. -/
theorem C9_running_delete_broken (s : VotingState) (now : String) :
    (setVotingStatus s "running" now).1 =
      { s with config := { s.config with status := "running" } } ∧
    (setVotingStatus s "running" now).1.votes = s.votes := by
  have hcond : ¬("running" = "stopped" ∧ jsOrStr s.config.status "stopped" ≠ "stopped") := by
    rintro ⟨hc, -⟩
    exact absurd hc (by decide)
  unfold setVotingStatus
  dsimp only
  rw [if_neg hcond]
  exact ⟨rfl, rfl⟩

/-- Claim C5: starting from the initialized schema, every state reachable
by single-threaded execution of the API operations has at most one `votes`
row per `(phone_number, round)` pair — the read-then-write duplicate checks
of `POST /api/votes` and the Twilio webhook preserve the uniqueness
invariant, and every other operation only removes rows. -/
theorem C5_votes_unique_per_round (ops : List Op) : votesDistinct (execOps ops) := by
  unfold execOps
  exact votesDistinct_foldl ops initState (by simp [votesDistinct, initState])

/-- Claim C4 (amended): in every state reachable from the initialized
database by request sequences whose `POST /api/votes/status` bodies carry
only `"running"` or `"stopped"`, the `voting_config` status is `"running"`
or `"stopped"`.  The restriction is necessary: the endpoint writes the
client-supplied string unvalidated (see the counterexample). -/
theorem C4_status_invariant (ops : List Op)
    (hops : ∀ op ∈ ops, opStatusOK op = true) :
    (execOps ops).config.status = "running" ∨
      (execOps ops).config.status = "stopped" := by
  unfold execOps
  exact statusOK_foldl ops initState hops (Or.inr rfl)

/-- Witness for `C4_status_invariant` at a concrete request sequence. -/
theorem C4_status_invariant_witness :
    (∀ op ∈ [Op.setStatus "running" "tw1", Op.clearVotes "tw2"], opStatusOK op = true) ∧
    ((execOps [Op.setStatus "running" "tw1", Op.clearVotes "tw2"]).config.status = "running" ∨
      (execOps [Op.setStatus "running" "tw1", Op.clearVotes "tw2"]).config.status = "stopped") :=
  ⟨by decide, C4_status_invariant _ (by decide)⟩

/-- Counterexample to claim C4 as stated: `POST /api/votes/status` performs
no validation, so a single request with body `{status: "banana"}` reaches a
state whose stored status is neither `"running"` nor `"stopped"`. -/
theorem C4_claim_false :
    ¬ ∀ ops : List Op, (execOps ops).config.status = "running" ∨
      (execOps ops).config.status = "stopped" := by
  intro hall
  have h := hall [Op.setStatus "banana" "t0"]
  revert h
  decide

/-- Claim C2 (amended): a `POST /api/votes/status` request with status
`"stopped"`, received while the stored status is neither `"stopped"` nor
the empty string, archives every current-round vote into `voting_history`
as one snapshot row (appended only when the round has votes), deletes all
of that round's rows from `votes`, and increments `current_round` by
exactly 1.  The empty-string exclusion is forced by the handler's
`config?.status || "stopped"` coalescing (see the counterexample). -/
theorem C2_stop_archives_round (s : VotingState) (now : String)
    (h1 : s.config.status ≠ "stopped") (h2 : s.config.status ≠ "") :
    (∀ v ∈ s.votes, v.round = s.config.current_round →
      ∃ hr ∈ (setVotingStatus s "stopped" now).1.history,
        hr.round = s.config.current_round ∧ v ∈ hr.votes_json) ∧
    (setVotingStatus s "stopped" now).1.history =
      s.history ++
        (if (s.votes.filter (fun v => v.round == s.config.current_round)).isEmpty then []
          else [{ round := s.config.current_round
                  votes_json := s.votes.filter (fun v => v.round == s.config.current_round)
                  ended_at := now }]) ∧
    (setVotingStatus s "stopped" now).1.votes =
      s.votes.filter (fun v => v.round != s.config.current_round) ∧
    (setVotingStatus s "stopped" now).1.config.current_round =
      s.config.current_round + 1 := by
  have hcond : ("stopped" = "stopped" ∧ jsOrStr s.config.status "stopped" ≠ "stopped") := by
    refine ⟨rfl, ?_⟩
    unfold jsOrStr
    rw [if_neg h2]
    exact h1
  unfold setVotingStatus
  dsimp only
  rw [if_pos hcond]
  refine ⟨?_, ?_, rfl, rfl⟩
  · intro v hv hr
    have hvmem : v ∈ s.votes.filter (fun w => w.round == s.config.current_round) := by
      rw [List.mem_filter]
      exact ⟨hv, by simp [hr]⟩
    have hemp : ¬ (s.votes.filter (fun w => w.round == s.config.current_round)).isEmpty = true := by
      intro he
      rw [List.isEmpty_iff] at he
      rw [he] at hvmem
      exact absurd hvmem (List.not_mem_nil v)
    rw [if_neg hemp]
    exact ⟨_, List.mem_append_right _ (List.mem_singleton_self _), rfl, hvmem⟩
  · by_cases hemp : (s.votes.filter (fun w => w.round == s.config.current_round)).isEmpty = true
    · rw [if_pos hemp, if_pos hemp, List.append_nil]
    · rw [if_neg hemp, if_neg hemp]

/-- A concrete state used to witness `C2_stop_archives_round`: one vote in
round 1 while voting is running. -/
def runningOneVoteState : VotingState :=
  { votes := [{ id := 1, phone_number := "+15550001111", letter := "A", round := 1, created_at := "t2" }]
    config := { current_round := 1, status := "running" }
    history := []
    nextVoteId := 2 }

/-- Witness for `C2_stop_archives_round` at a concrete running state. -/
theorem C2_stop_archives_round_witness :
    (setVotingStatus runningOneVoteState "stopped" "t4").1.config.current_round =
      runningOneVoteState.config.current_round + 1 :=
  (C2_stop_archives_round runningOneVoteState "t4" (by decide) (by decide)).2.2.2

/-- A request sequence reaching a state whose stored status is the empty
string: start voting, cast one vote, then set status to `""`. -/
def emptyStatusOps : List Op :=
  [Op.setStatus "running" "t1", Op.castVote "+15550001111" (some "a") "t2",
   Op.setStatus "" "t3"]

/-- Counterexample to claim C2 as stated: in the reachable state produced
by `emptyStatusOps` the stored status is `""`, which is not `"stopped"`,
yet a `{status:"stopped"}` request archives nothing, deletes none of the
round's votes, and leaves `current_round` unchanged, because the handler
coalesces the falsy stored status to `"stopped"` and takes the plain
update branch. -/
theorem C2_claim_false :
    (execOps emptyStatusOps).config.status ≠ "stopped" ∧
    (execOps emptyStatusOps).votes ≠ [] ∧
    (setVotingStatus (execOps emptyStatusOps) "stopped" "t4").1.history = [] ∧
    (setVotingStatus (execOps emptyStatusOps) "stopped" "t4").1.votes =
      (execOps emptyStatusOps).votes ∧
    (setVotingStatus (execOps emptyStatusOps) "stopped" "t4").1.config.current_round =
      (execOps emptyStatusOps).config.current_round := by
  refine ⟨?_, ?_, ?_, ?_, ?_⟩ <;> decide

/-- Claim C3 (code bug): votes received while the status is not
`"running"` are never stored as pending — no file of the repository
creates the `pending_votes` table, so the buffering
`INSERT INTO pending_votes` always fails with `no such table`.  On the
freshly initialized (stopped) database, `POST /api/votes` with a letter
answers HTTP 500 carrying the SQLite error and leaves the whole state
(in particular the `votes` table) unchanged, and the single-letter Twilio
webhook merely logs the error, stores nothing, leaves the state unchanged
and still answers the empty XML stanza. -/
theorem C3_pending_buffer_broken :
    (castVote initState "+15550002222" (some "b") "t1").1 = initState ∧
    (castVote initState "+15550002222" (some "b") "t1").2 =
      VoteResponse.serverError "SQLITE_ERROR: no such table: pending_votes" ∧
    (twilioWebhook initState (some "+15550003333") (some "c") "t2").1 = initState ∧
    (twilioWebhook initState (some "+15550003333") (some "c") "t2").2 =
      WebhookResponse.xmlEmpty := by
  refine ⟨rfl, rfl, ?_, ?_⟩ <;> decide

/-- Claim C6: a `POST /api/votes` request received while voting is running,
from a phone number that already has a vote in the current round, is
answered with HTTP 400 `"Phone number already voted in this round"` and
changes nothing — in particular no new `votes` row is inserted. -/
theorem C6_duplicate_vote_rejected (s : VotingState) (phone : String)
    (letter : Option String) (now : String)
    (h1 : s.config.status = "running")
    (h2 : ∃ v ∈ s.votes, v.phone_number = phone ∧ v.round = jsOr s.config.current_round 1) :
    (castVote s phone letter now).2 =
      VoteResponse.badRequest "Phone number already voted in this round" ∧
    (castVote s phone letter now).1 = s := by
  have hne : ¬ s.config.status ≠ "running" := by simp [h1]
  have hsome : (s.votes.find?
      (fun v => v.phone_number == phone && v.round == jsOr s.config.current_round 1)).isSome := by
    rw [List.find?_isSome]
    obtain ⟨v, hv, hp, hr⟩ := h2
    exact ⟨v, hv, by simp [hp, hr]⟩
  obtain ⟨w, hw⟩ := Option.isSome_iff_exists.mp hsome
  unfold castVote
  dsimp only
  rw [if_neg hne, hw]
  exact ⟨rfl, rfl⟩

/-- Witness for `C6_duplicate_vote_rejected`: the same phone number voting
again in round 1 of `runningOneVoteState`. -/
theorem C6_duplicate_vote_rejected_witness :
    (castVote runningOneVoteState "+15550001111" (some "b") "t5").2 =
      VoteResponse.badRequest "Phone number already voted in this round" ∧
    (castVote runningOneVoteState "+15550001111" (some "b") "t5").1 = runningOneVoteState :=
  C6_duplicate_vote_rejected runningOneVoteState "+15550001111" (some "b") "t5" rfl
    ⟨{ id := 1, phone_number := "+15550001111", letter := "A", round := 1, created_at := "t2" },
      by decide, rfl, by decide⟩

/-- Claim C7: a `POST /api/submit` request with a non-blank name and an
accepted upload (in local mode one that passes the dimension check), whose
database insert succeeds, is answered 201 with the generated id, the
trimmed name and the image URL, and exactly one `users` row is inserted. -/
theorem C7_submit_success (useSpaces : Bool) (n : String) (f : ReqFile)
    (userId protocol host now : String)
    (h1 : ¬ jsTrim n = "")
    (h2 : useSpaces = true ∨ (validateImageSize f.path).valid = true) :
    submitHandler useSpaces (some n) (some f) userId protocol host true now =
      { response := .created userId (jsTrim n) (submitImageUrl useSpaces f protocol host) now
          (if useSpaces then "spaces" else "local")
        insertedRows := [{ id := userId, name := jsTrim n
                           image_path := submitImagePath useSpaces f
                           image_url := submitImageUrl useSpaces f protocol host }]
        deletedFiles := [] } := by
  have hcond : ¬(useSpaces = false ∧ (validateImageSize f.path).valid = false) := by
    rintro ⟨hu, hv⟩
    rcases h2 with h2 | h2
    · rw [h2] at hu
      exact absurd hu (by decide)
    · rw [h2] at hv
      exact absurd hv (by decide)
  unfold submitHandler
  dsimp only
  rw [if_neg h1]
  rw [if_neg hcond]
  rfl

/-- The `req.file` object of a Spaces-mode upload used in witnesses. -/
def spacesFile : ReqFile :=
  { path := "", filename := "", key := "images/abc.png"
    location := "https://bucket.nyc3.digitaloceanspaces.com/images/abc.png" }

/-- Witness for `C7_submit_success`: a Spaces-mode submission. -/
theorem C7_submit_success_witness :
    submitHandler true (some "Alice") (some spacesFile) "m0abcd" "https" "example.com" true "t1" =
      { response := .created "m0abcd" (jsTrim "Alice")
          (submitImageUrl true spacesFile "https" "example.com") "t1"
          (if true then "spaces" else "local")
        insertedRows := [{ id := "m0abcd", name := jsTrim "Alice"
                           image_path := submitImagePath true spacesFile
                           image_url := submitImageUrl true spacesFile "https" "example.com" }]
        deletedFiles := [] } :=
  C7_submit_success true "Alice" spacesFile "m0abcd" "https" "example.com" "t1"
    (by decide) (Or.inl rfl)

/-- Claim C8: in local-storage mode, whenever `POST /api/submit` fails after
the upload was written to disk (the request had a non-blank name and a
stored file, and the response is an error), the handler unlinks the stored
file before answering and inserts no `users` row. -/
theorem C8_local_failure_cleanup (n : String) (f : ReqFile)
    (userId protocol host now : String) (insertOk : Bool)
    (h1 : ¬ jsTrim n = "")
    (h2 : (submitHandler false (some n) (some f) userId protocol host insertOk now).response.isError
      = true) :
    (submitHandler false (some n) (some f) userId protocol host insertOk now).deletedFiles
      = [f.path] ∧
    (submitHandler false (some n) (some f) userId protocol host insertOk now).insertedRows
      = [] := by
  have hcond : (false = false ∧ (validateImageSize f.path).valid = false) := ⟨rfl, rfl⟩
  unfold submitHandler
  dsimp only
  rw [if_neg h1]
  rw [if_pos hcond]
  exact ⟨rfl, rfl⟩

/-- The `req.file` object of a local-mode upload used in witnesses. -/
def localFile1 : ReqFile :=
  { path := "uploads/images/u1.png", filename := "u1.png", key := "", location := "" }

/-- Witness for `C8_local_failure_cleanup` on a concrete local upload. -/
theorem C8_local_failure_cleanup_witness :
    (¬ jsTrim "Alice" = "" ∧
      (submitHandler false (some "Alice") (some localFile1)
        "id1" "http" "localhost:3001" true "t1").response.isError = true) ∧
    ((submitHandler false (some "Alice") (some localFile1)
        "id1" "http" "localhost:3001" true "t1").deletedFiles = ["uploads/images/u1.png"] ∧
      (submitHandler false (some "Alice") (some localFile1)
        "id1" "http" "localhost:3001" true "t1").insertedRows = []) :=
  ⟨⟨by decide, by decide⟩,
    C8_local_failure_cleanup "Alice" localFile1
      "id1" "http" "localhost:3001" "t1" true (by decide) (by decide)⟩

end FormApp
